import Mathlib

/-!
Verification of the nexmo call-control document builder (`nexmo/request.py`
and `nexmo/response.py`).

The code is Python-2-era Python; the embedding below follows it line by line:

* Python values that can appear as option values are modelled by `PyVal`
  (strings, ints, bools, `None`, lists, dicts).  Dicts are modelled as
  insertion-ordered association lists, matching the deterministic
  insertion-order view used throughout the proofs.
* Python `dict` assignment `d[k] = v` is `PyDict.set` (replace in place if the
  key is present, append otherwise); `d.get(k)` is `PyDict.get`.
* Exceptions become `Except PyError`; the explicit `raise ValueError` in
  `RequestAction.add_lists` is `PyError.valueError` (the spec's `ShapeError`),
  iterating a non-iterable (Python 2 `filter` over a non-iterable) is
  `PyError.typeError`, and the `raise ImportError` in `Request.render` is
  `PyError.importError` (the spec's `UnavailableDependency`).  The error
  message strings carry no behaviour and are not modelled.
* The code targets Python 2 (`iteritems`, list-returning `filter`), so
  `filter(f, xs)` used in boolean position is "some element satisfies f".
-/

namespace Nexmo

mutual
inductive PyVal where
  | str (s : String)
  | int (n : Int)
  | bool (b : Bool)
  | none
  | list (xs : PyList)
  | dict (kvs : PyDict)
deriving DecidableEq
inductive PyList where
  | nil
  | cons (hd : PyVal) (tl : PyList)
deriving DecidableEq
inductive PyDict where
  | nil
  | cons (key : String) (val : PyVal) (tl : PyDict)
deriving DecidableEq
end

/-- Build a `PyList` from a Lean list literal. -/
def pyListOf : List PyVal → PyList
  | [] => .nil
  | x :: xs => .cons x (pyListOf xs)

/-- Build a `PyDict` from a Lean list of key/value pairs (insertion order). -/
def pyDictOf : List (String × PyVal) → PyDict
  | [] => .nil
  | (k, v) :: kvs => .cons k v (pyDictOf kvs)

/-- Python dict assignment `d[k] = v`: replace in place when `k` is already a
key (its position is kept), append at the end otherwise. -/
def PyDict.set : PyDict → String → PyVal → PyDict
  | .nil, k, v => .cons k v .nil
  | .cons k' v' rest, k, v =>
    if k' = k then .cons k' v rest else .cons k' v' (PyDict.set rest k v)

/-- Python dict lookup `d.get(k)`. -/
def PyDict.get : PyDict → String → Option PyVal
  | .nil, _ => Option.none
  | .cons k' v rest, k => if k' = k then some v else PyDict.get rest k

def PyDict.isEmpty : PyDict → Bool
  | .nil => true
  | .cons _ _ _ => false

def PyList.isEmpty : PyList → Bool
  | .nil => true
  | .cons _ _ => false

/-- Python 2 `filter(p, xs)` used in boolean position: the filtered list is
truthy iff some element satisfies `p`. -/
def PyList.any (p : PyVal → Bool) : PyList → Bool
  | .nil => false
  | .cons x xs => p x || PyList.any p xs

/-- Python truthiness of a value (`if value:`). -/
def pyTruthy : PyVal → Bool
  | .str s => !s.isEmpty
  | .int n => decide (n ≠ 0)
  | .bool b => b
  | .none => false
  | .list xs => !xs.isEmpty
  | .dict kvs => !kvs.isEmpty

inductive PyError where
  /-- The explicit `raise ValueError` in `RequestAction.add_lists` /
  `add_dict`; the spec calls it `ShapeError`. -/
  | valueError
  /-- Python `TypeError`, e.g. iterating a non-iterable value. -/
  | typeError
  /-- The `raise ImportError` in `Request.render`; the spec calls it
  `UnavailableDependency`. -/
  | importError
deriving DecidableEq

/-- Iterating a Python dict yields its keys (which are strings here). -/
def PyDict.iterKeys : PyDict → PyList
  | .nil => .nil
  | .cons k _ rest => .cons (.str k) (PyDict.iterKeys rest)

/-- Python iteration of a value, as used by `filter(f, the_list)`: lists yield
their elements, strings their characters, dicts their keys; ints, bools and
`None` are not iterable and raise `TypeError`. -/
def pyIter : PyVal → Except PyError PyList
  | .list xs => .ok xs
  | .str s => .ok (pyListOf (s.data.map (fun c => .str (String.singleton c))))
  | .dict kvs => .ok kvs.iterKeys
  | _ => .error .typeError

/-- The only `sub_type` ever passed to `add_lists` in the source is `dict`. -/
inductive PyType where
  | dict
deriving DecidableEq

/-- Python `isinstance(v, t)` for the types used by the source. -/
def isInstanceOf : PyVal → PyType → Bool
  | .dict _, .dict => true
  | _, .dict => false

/-- Python `isinstance(v, list)`. -/
def isListInstance : PyVal → Bool
  | .list _ => true
  | _ => false

def isNone : PyVal → Bool
  | .none => true
  | _ => false

/-- Python `str(b).lower()` for a bool `b`. -/
def pyBoolStr (b : Bool) : String := if b then "true" else "false"

def splitUnderscoreAux : List Char → List Char → List (List Char)
  | [], acc => [acc.reverse]
  | c :: cs, acc =>
    if c = '_' then acc.reverse :: splitUnderscoreAux cs []
    else splitUnderscoreAux cs (c :: acc)

/-- Python `name.split('_')`: the segments between underscores, empty segments
kept; always at least one segment. -/
def pySplitUnderscore (s : String) : List String :=
  (splitUnderscoreAux s.data []).map String.mk

/-- Python `s.lower()` (the identifiers in this code are ASCII). -/
def pyLower (s : String) : String := String.mk (s.data.map Char.toLower)

/-- Python `str.title` restricted to one pass over the characters: an
alphabetic character is upper-cased when the previous character was not
alphabetic and lower-cased otherwise; other characters pass through and reset
the word boundary.  The accumulator records whether the previous character was
alphabetic ("cased"). -/
def titleAux : Bool → List Char → List Char
  | _, [] => []
  | prevCased, c :: cs =>
    if c.isAlpha then
      (if prevCased then c.toLower else c.toUpper) :: titleAux true cs
    else
      c :: titleAux false cs

/-- Python `s.title()`. -/
def pyTitle (s : String) : String := String.mk (titleAux false s.data)

/-- `RequestAction._snake_case_to_camel` (request.py lines 18-28): split on
`_`; with two or more segments, the first segment unchanged followed by
`str.title` of each later segment; otherwise `name.lower()`.  (The `if words`
guard in the source is redundant: `split` never returns an empty list.) -/
def snake_case_to_camel (name : String) : String :=
  let words := pySplitUnderscore name
  if 1 < words.length then
    (words.headD "") ++ String.join ((words.drop 1).map pyTitle)
  else
    pyLower name

structure RequestAction where
  action : String
  options : PyDict
deriving DecidableEq

/-- The bool-to-lowercase-string coercion inside `RequestAction.add_option`
(`if isinstance(value, bool): value = str(value).lower()`). -/
def coerceBool : PyVal → PyVal
  | .bool b => .str (pyBoolStr b)
  | v => v

/-- `RequestAction.add_option` (request.py lines 73-96).  The non-snake-case
warning in the source is a non-fatal diagnostic with no effect on state and
is not modelled. -/
def RequestAction.add_option (a : RequestAction) (name : String) (value : PyVal) : RequestAction :=
  let name' := if name = "_from" then "from" else name
  let key := snake_case_to_camel name'
  { a with options := a.options.set key (coerceBool value) }

/-- `RequestAction.add_options` (request.py lines 98-108); `kwargs` is the
keyword-argument dict in insertion order. -/
def RequestAction.add_options (a : RequestAction) (skip_none_value : Bool)
    (kwargs : List (String × PyVal)) : RequestAction :=
  kwargs.foldl
    (fun acc kv => if skip_none_value && isNone kv.2 then acc else acc.add_option kv.1 kv.2)
    a

/-- `RequestAction.__init__` (request.py lines 30-36): sets the action tag, a
fresh empty options dict, then `add_options(skip_none_value=False, **kwargs)`. -/
def RequestAction.init (action : String) (kwargs : List (String × PyVal)) : RequestAction :=
  RequestAction.add_options { action := action, options := .nil } false kwargs

/-- One iteration of the `RequestAction.add_lists` loop body (request.py lines
43-56): with a `sub_type`, Python 2 `filter` iterates the value (raising
`TypeError` if it is not iterable) and the resulting list is truthy iff some
element is not an instance of `sub_type`, raising `ValueError`; then the
`isinstance(the_list, list)` check is only reached when the value is truthy;
finally the value is stored via `add_option`. -/
def RequestAction.add_lists_item (a : RequestAction) (sub_type : Option PyType)
    (name : String) (the_list : PyVal) : Except PyError RequestAction := do
  if let some ty := sub_type then
    let items ← pyIter the_list
    if items.any (fun itm => !isInstanceOf itm ty) then
      throw .valueError
  if pyTruthy the_list && !isListInstance the_list then
    throw .valueError
  return a.add_option name the_list

/-- `RequestAction.add_lists` (request.py lines 38-56). -/
def RequestAction.add_lists (a : RequestAction) (sub_type : Option PyType)
    (skip_none_value : Bool) (kwargs : List (String × PyVal)) : Except PyError RequestAction :=
  kwargs.foldlM
    (fun acc kv =>
      if skip_none_value && isNone kv.2 then pure acc
      else acc.add_lists_item sub_type kv.1 kv.2)
    a

/-- `RequestAction.clear_options` (request.py lines 110-114). -/
def RequestAction.clear_options (a : RequestAction) : RequestAction :=
  { a with options := .nil }

/-- `RequestAction._get_dict` (request.py lines 116-126).  `options =
self.options or {}` yields a fresh dict only when `self.options` is falsy
(empty); otherwise `options` aliases `self.options`, so the
`options.update({'action': self.action})` that follows is persisted into the
action's own options.  Returns the dict handed to the caller together with
the (possibly mutated) action. -/
def RequestAction.get_dict_ (a : RequestAction) : PyDict × RequestAction :=
  if a.options.isEmpty then
    (PyDict.set .nil "action" (.str a.action), a)
  else
    let opts := a.options.set "action" (.str a.action)
    (opts, { a with options := opts })

mutual
/-- `RequestJsonEncoder.normalize_dict` (request.py lines 369-379): bools
become their lowercase string form, lists and dicts are normalized
recursively, everything else passes through. -/
def normalize_dict : PyVal → PyVal
  | .bool b => .str (pyBoolStr b)
  | .list xs => .list (normList xs)
  | .dict kvs => .dict (normKVs kvs)
  | v => v
def normList : PyList → PyList
  | .nil => .nil
  | .cons x xs => .cons (normalize_dict x) (normList xs)
def normKVs : PyDict → PyDict
  | .nil => .nil
  | .cons k v kvs => .cons k (normalize_dict v) (normKVs kvs)
end

mutual
/-- `true` iff no native Python/JSON boolean occurs anywhere in the value.
The standard JSON serializer emits the bare tokens `true`/`false` exactly at
native boolean nodes, so a `boolFree` tree serializes without any native
boolean token. -/
def boolFree : PyVal → Bool
  | .bool _ => false
  | .list xs => boolFreeList xs
  | .dict kvs => boolFreeDict kvs
  | _ => true
def boolFreeList : PyList → Bool
  | .nil => true
  | .cons x xs => boolFree x && boolFreeList xs
def boolFreeDict : PyDict → Bool
  | .nil => true
  | .cons _ v kvs => boolFree v && boolFreeDict kvs
end

/-- `RequestJsonEncoder.default` applied to a `RequestAction` (request.py
lines 381-383): `normalize_dict(dict(o))`, where `dict(o)` enumerates
`_get_dict()` via `__iter__` (lines 128-129).  Returns the normalized wire
value together with the action as mutated by `_get_dict`. -/
def encodeAction (a : RequestAction) : PyVal × RequestAction :=
  (normalize_dict (.dict a.get_dict_.fst), a.get_dict_.snd)

/-- The wire representation of an action: the value handed to the JSON writer. -/
def wireVal (a : RequestAction) : PyVal := (encodeAction a).fst

/-- The wire representation as a dict (for membership statements). -/
def wireDict (a : RequestAction) : PyDict := normKVs a.get_dict_.fst

/-- Encode a list of actions in order, threading each action's `_get_dict`
mutation. -/
def encodeActions : List RequestAction → List PyVal × List RequestAction
  | [] => ([], [])
  | a :: rest =>
    ((encodeAction a).fst :: (encodeActions rest).fst,
     (encodeAction a).snd :: (encodeActions rest).snd)

def spacesN (n : Nat) : String := String.mk (List.replicate n ' ')

/-- JSON string escaping for the characters exercised by this development
(quote, backslash, common control characters); other characters pass through. -/
def escChar (c : Char) : String :=
  if c = '"' then "\\\""
  else if c = '\\' then "\\\\"
  else if c = '\n' then "\\n"
  else if c = '\t' then "\\t"
  else if c = '\r' then "\\r"
  else String.singleton c

def jsonQuote (s : String) : String := "\"" ++ String.join (s.data.map escChar) ++ "\""

/-- Insert a key/value pair into a key-sorted dict. -/
def PyDict.insertSorted (k : String) (v : PyVal) : PyDict → PyDict
  | .nil => .cons k v .nil
  | .cons k' v' rest =>
    if k < k' then .cons k v (.cons k' v' rest)
    else .cons k' v' (PyDict.insertSorted k v rest)

/-- Sort a dict by key (Python `json.dumps(..., sort_keys=True)` sorts the
members of every object). -/
def PyDict.sortByKey : PyDict → PyDict
  | .nil => .nil
  | .cons k v rest => (PyDict.sortByKey rest).insertSorted k v

mutual
/-- Apply `sort_keys=True` to a whole value tree: every dict at every depth is
sorted by key. -/
def sortDeep : PyVal → PyVal
  | .list xs => .list (sortDeepList xs)
  | .dict kvs => .dict (sortDeepKVs kvs).sortByKey
  | v => v
def sortDeepList : PyList → PyList
  | .nil => .nil
  | .cons x xs => .cons (sortDeep x) (sortDeepList xs)
def sortDeepKVs : PyDict → PyDict
  | .nil => .nil
  | .cons k v rest => .cons k (sortDeep v) (sortDeepKVs rest)
end

/-- Join rendered container items the way `json.dumps` does: separators
`", "`/`": "` when `indent` is absent; one item per line at the
indentation of the enclosing level plus one when `indent=n` is given. -/
def joinContainer (ind : Option Nat) (lvl : Nat) (openB closeB : String)
    (items : List String) : String :=
  match items with
  | [] => openB ++ closeB
  | _ =>
    match ind with
    | Option.none => openB ++ String.intercalate ", " items ++ closeB
    | some n =>
      let pad := spacesN ((lvl + 1) * n)
      openB ++ "\n" ++ pad ++ String.intercalate (",\n" ++ pad) items
        ++ "\n" ++ spacesN (lvl * n) ++ closeB

mutual
/-- The standard JSON writer (`json.dumps`) on already-encoded values, with
optional indentation.  Native booleans are rendered as the bare tokens
`true`/`false`; strings are always quoted. -/
def dumpVal (ind : Option Nat) (lvl : Nat) : PyVal → String
  | .str s => jsonQuote s
  | .int n => toString n
  | .bool b => if b then "true" else "false"
  | .none => "null"
  | .list xs => joinContainer ind lvl "[" "]" (dumpListItems ind lvl xs)
  | .dict kvs => joinContainer ind lvl "\x7b" "\x7d" (dumpDictItems ind lvl kvs)
def dumpListItems (ind : Option Nat) (lvl : Nat) : PyList → List String
  | .nil => []
  | .cons x xs => dumpVal ind (lvl + 1) x :: dumpListItems ind lvl xs
def dumpDictItems (ind : Option Nat) (lvl : Nat) : PyDict → List String
  | .nil => []
  | .cons k v rest =>
    (jsonQuote k ++ ": " ++ dumpVal ind (lvl + 1) v) :: dumpDictItems ind lvl rest
end

/-- `json.dumps(value, **json_options)` restricted to the options reachable
from `Request.__init__` (`indent` and `sort_keys`). -/
def pyJsonDumps (sort_keys : Bool) (indent : Option Nat) (v : PyVal) : String :=
  dumpVal indent 0 (if sort_keys then sortDeep v else v)

structure Request where
  /-- `json_options['indent']`, set to 4 by `pretty=True`. -/
  indent : Option Nat
  /-- `json_options['sort_keys']`. -/
  sort_keys : Bool
  actions : List RequestAction
deriving DecidableEq

/-- `Request.__init__` (request.py lines 396-404) with no extra
`json_options`. -/
def Request.init (pretty sort_keys : Bool) : Request :=
  { indent := if pretty then some 4 else Option.none
    sort_keys := sort_keys
    actions := [] }

/-- `Request.add_action` (request.py lines 406-413): O(1) append. -/
def Request.add_action (r : Request) (action : RequestAction) : Request :=
  { r with actions := r.actions ++ [action] }

/-- `Request.get_json_string` (request.py lines 415-422):
`json.dumps(self.actions, cls=RequestJsonEncoder, **self.json_options)`.
Each action is encoded by the encoder's `default` hook; the `_get_dict`
mutation of each action is threaded back into the returned `Request`. -/
def Request.get_json_string (r : Request) : String × Request :=
  (pyJsonDumps r.sort_keys r.indent (.list (pyListOf (encodeActions r.actions).fst)),
   { r with actions := (encodeActions r.actions).snd })

/-- The list of wire values the serializer hands to the JSON writer,
in append order. -/
def Request.wireVals (r : Request) : List PyVal := (encodeActions r.actions).fst

/-- Append a list of actions one by one through `Request.add_action`. -/
def appendActions (r : Request) (l : List RequestAction) : Request :=
  l.foldl Request.add_action r

/-- `Connect.__init__` (request.py lines 206-242), parameters in source
order: base init with the `connect` tag and passthrough kwargs, then
`add_lists(endpoint=endpoint, sub_type=dict)`, then
`add_lists(event_url=event_url)`, then the remaining named options with
`skip_none_value=True`. -/
def Connect.init (endpoint event_url event_method fromArg event_type timeout limit
    machine_detection : PyVal) (kwargs : List (String × PyVal)) :
    Except PyError RequestAction := do
  let a := RequestAction.init "connect" kwargs
  let a ← a.add_lists (some .dict) true [("endpoint", endpoint)]
  let a ← a.add_lists Option.none true [("event_url", event_url)]
  return a.add_options true
    [("event_method", event_method), ("_from", fromArg), ("event_type", event_type),
     ("timeout", timeout), ("limit", limit), ("machine_detection", machine_detection)]

/-- `Connect` with every keyword argument left at its source default
(`event_method='POST'`, `_from=None`, `event_type=None`, `timeout=60`,
`limit=7200`, `machine_detection=None`, no extra kwargs). -/
def connectDefaults (endpoint event_url : PyVal) : Except PyError RequestAction :=
  Connect.init endpoint event_url (.str "POST") .none .none (.int 60) (.int 7200) .none []

/-- `Talk.__init__` (request.py lines 294-313). -/
def Talk.init (text barge_in loop voice_name : PyVal) (kwargs : List (String × PyVal)) :
    RequestAction :=
  (RequestAction.init "talk" kwargs).add_options true
    [("text", text), ("barge_in", barge_in), ("loop", loop), ("voice_name", voice_name)]

/-- `Request.render` support (request.py lines 4-7): the module-level
`try: from django.http import HttpResponse / except: HttpResponse = None`.
Whether django is installed is an environment fact. -/
structure DjangoEnv where
  django_installed : Bool
deriving DecidableEq

/-- The module-level binding `HttpResponse` after the guarded import:
present when django is installed, `None` otherwise. -/
structure RequestModule where
  httpResponse : Option Unit
deriving DecidableEq

/-- The module state the guarded import establishes for a given environment. -/
def requestModuleOf (env : DjangoEnv) : RequestModule :=
  { httpResponse := if env.django_installed then some () else Option.none }

/-- Loading the module: the `try/except` swallows the `ImportError`, so the
load itself always succeeds, binding `HttpResponse` accordingly. -/
def importRequestModule (env : DjangoEnv) : Except PyError RequestModule :=
  .ok (requestModuleOf env)

/-- The wrapped response object produced by `Request.render`. -/
structure HttpResponseObj where
  content : String
  content_type : String
deriving DecidableEq

def JSON_MIME : String := "application/json"

/-- `Request.render` (request.py lines 424-434): raises `ImportError` (the
spec's `UnavailableDependency`) when the `HttpResponse` binding is `None`;
otherwise wraps `get_json_string()` with content type `application/json`. -/
def Request.render (m : RequestModule) (r : Request) :
    Except PyError (HttpResponseObj × Request) :=
  match m.httpResponse with
  | Option.none => .error .importError
  | some _ =>
    .ok ({ content := r.get_json_string.fst, content_type := JSON_MIME },
         r.get_json_string.snd)

/-!
Response side (`nexmo/response.py`).  `ResponseAction` declares `options = {}`
as a class attribute (line 9).  `__init__` assigns `self.action` but never
assigns `self.options`, so attribute lookup of `self.options` on every
instance resolves to the single class-level dict, and `self.options[key] =
value` in `add_option` (lines 29-41) mutates that shared dict, as does
`self.options.clear()` in `clear_options` (lines 52-56).  (Instance creation
is itself broken in the source: `__init__` passes the kwargs dict
positionally to `add_options(self, **kwargs)`, which raises `TypeError`; the
model records the state `__init__` establishes before that call — the action
tag set, no instance-level options attribute — since the options store is
class-level either way.)
-/

/-- A `ResponseAction` instance: its action tag, and its instance-level
`options` attribute if one was ever assigned (the source never assigns one,
leaving attribute lookup to fall back to the class attribute). -/
structure ResponseActionInst where
  action : String
  ownOptions : Option PyDict
deriving DecidableEq

/-- The class-level state of `ResponseAction`: the shared `options` dict. -/
structure ResponseClassState where
  options : PyDict
deriving DecidableEq

/-- Python attribute lookup for `self.options`: the instance attribute when
present, the class attribute otherwise. -/
def respOptions (cls : ResponseClassState) (inst : ResponseActionInst) : PyDict :=
  inst.ownOptions.getD cls.options

/-- `ResponseAction.__init__` (response.py lines 22-27): sets `self.action`;
`self.options` is never made instance-local. -/
def ResponseAction.init (cls : ResponseClassState) (action : String) :
    ResponseClassState × ResponseActionInst :=
  (cls, { action := action, ownOptions := Option.none })

/-- `ResponseAction.add_option` (response.py lines 29-41): converts the name
and assigns into whichever dict `self.options` resolves to.  Note: unlike the
request side, no bool coercion and no `_from` special case. -/
def ResponseAction.add_option (cls : ResponseClassState) (inst : ResponseActionInst)
    (name : String) (value : PyVal) : ResponseClassState × ResponseActionInst :=
  let key := snake_case_to_camel name
  match inst.ownOptions with
  | some own => (cls, { inst with ownOptions := some (own.set key value) })
  | Option.none => ({ cls with options := cls.options.set key value }, inst)

/-- `ResponseAction.clear_options` (response.py lines 52-56): clears whichever
dict `self.options` resolves to. -/
def ResponseAction.clear_options (cls : ResponseClassState) (inst : ResponseActionInst) :
    ResponseClassState × ResponseActionInst :=
  match inst.ownOptions with
  | some _ => (cls, { inst with ownOptions := some .nil })
  | Option.none => ({ cls with options := .nil }, inst)

/-!
Claim-side and spec-side definitions for the key-normalization claim, and
concrete inputs used by individual claims.
-/

/-- Upper-case only the first character of a segment, leaving the rest
unchanged — the transformation the claim attributes to later segments. -/
def upperFirst (s : String) : String :=
  match s.data with
  | [] => ""
  | c :: cs => String.mk (c.toUpper :: cs)

/-- The key-normalization function exactly as the claim states it: first
segment unchanged, each later segment with only its first character
upper-cased; single-segment identifiers lower-cased. -/
def claimToWireKey (name : String) : String :=
  let words := pySplitUnderscore name
  if 1 < words.length then
    (words.headD "") ++ String.join ((words.drop 1).map upperFirst)
  else
    pyLower name

/-- Python `str.title` of a segment, stated independently of the embedding's
accumulator recursion: pair every character with its predecessor (a space
stands in before the first); a letter is upper-cased when its predecessor is
not a letter and lower-cased otherwise; non-letters pass through. -/
def titleSpec (s : String) : String :=
  String.mk ((s.data.zip (' ' :: s.data)).map
    (fun cp => if cp.1.isAlpha then (if cp.2.isAlpha then cp.1.toLower else cp.1.toUpper) else cp.1))

/-- The endpoint list of the Connect example: `[{"type":"phone","number":"123"}]`. -/
def c3endpoint : PyVal :=
  .list (pyListOf [.dict (pyDictOf [("type", .str "phone"), ("number", .str "123")])])

/-- The event url list of the Connect example: `["http://x"]`. -/
def c3eventUrl : PyVal := .list (pyListOf [.str "http://x"])

/-- The action the Connect example constructs (options in insertion order). -/
def c3action : RequestAction :=
  { action := "connect"
    options := pyDictOf
      [("endpoint", c3endpoint), ("eventUrl", c3eventUrl), ("eventMethod", .str "POST"),
       ("timeout", .int 60), ("limit", .int 7200)] }

instance {ε α : Type} [DecidableEq ε] [DecidableEq α] : DecidableEq (Except ε α) := fun x y =>
  match x, y with
  | .ok a, .ok b =>
    if h : a = b then .isTrue (by rw [h]) else .isFalse (by intro hh; cases hh; exact h rfl)
  | .error a, .error b =>
    if h : a = b then .isTrue (by rw [h]) else .isFalse (by intro hh; cases hh; exact h rfl)
  | .ok _, .error _ => .isFalse (fun hh => by cases hh)
  | .error _, .ok _ => .isFalse (fun hh => by cases hh)

/-- A talk action with a single option, used to exhibit the `_get_dict`
persistence of the reserved `action` key. -/
def c5act : RequestAction := RequestAction.init "talk" [("text", .str "hi")]

def c5req : Request := (Request.init false false).add_action c5act

/-- A stream action with a single option, used to exhibit that serialization
mutates the document's actions. -/
def c6act : RequestAction := RequestAction.init "stream" [("loop", .int 1)]

def c6req : Request := (Request.init false false).add_action c6act

/-- Two distinct concrete actions for the append-order witness. -/
def c7talk : RequestAction := Talk.init (.str "hello") (.bool false) (.int 1) (.str "Kimberly") []

def c7record : RequestAction := RequestAction.init "record" [("format", .str "mp3")]

def c7req : Request := ((Request.init false false).add_action c7talk).add_action c7record

/-- A request used by the render witness. -/
def c10req : Request := (Request.init false false).add_action (RequestAction.init "input" [])

/-- Concrete response-side class state and instances for the shared-store
witness: both instances were created by `ResponseAction.__init__` and so have
no instance-level options attribute. -/
def c9cls : ResponseClassState := { options := .nil }

def c9inst1 : ResponseActionInst := (ResponseAction.init c9cls "talk").snd

def c9inst2 : ResponseActionInst := (ResponseAction.init c9cls "talk").snd

/-!
Helper lemmas shared by the claim theorems.
-/

mutual
theorem boolFree_normalize (v : PyVal) : boolFree (normalize_dict v) = true := by
  cases v with
  | bool b => rfl
  | list xs => simpa [normalize_dict, boolFree] using boolFree_normList xs
  | dict kvs => simpa [normalize_dict, boolFree] using boolFree_normKVs kvs
  | str s => rfl
  | int n => rfl
  | none => rfl
theorem boolFree_normList (xs : PyList) : boolFreeList (normList xs) = true := by
  cases xs with
  | nil => rfl
  | cons x xs =>
    simp [normList, boolFreeList, boolFree_normalize x, boolFree_normList xs]
theorem boolFree_normKVs (kvs : PyDict) : boolFreeDict (normKVs kvs) = true := by
  cases kvs with
  | nil => rfl
  | cons k v kvs =>
    simp [normKVs, boolFreeDict, boolFree_normalize v, boolFree_normKVs kvs]
end

theorem boolFree_encodeAction (a : RequestAction) : boolFree (encodeAction a).fst = true := by
  simpa [encodeAction] using boolFree_normalize (.dict a.get_dict_.fst)

theorem boolFreeList_encodeActions (l : List RequestAction) :
    boolFreeList (pyListOf (encodeActions l).fst) = true := by
  induction l with
  | nil => rfl
  | cons a rest ih =>
    simp [encodeActions, pyListOf, boolFreeList, boolFree_encodeAction a, ih]

theorem PyDict.get_set_self : ∀ (d : PyDict) (k : String) (v : PyVal),
    (d.set k v).get k = some v
  | .nil, k, v => by simp [PyDict.set, PyDict.get]
  | .cons k' v' rest, k, v => by
    by_cases h : k' = k <;>
      simp [PyDict.set, PyDict.get, h, PyDict.get_set_self rest k v]

theorem PyDict.set_set : ∀ (d : PyDict) (k : String) (v : PyVal),
    (d.set k v).set k v = d.set k v
  | .nil, k, v => by simp [PyDict.set]
  | .cons k' v' rest, k, v => by
    by_cases h : k' = k <;> simp [PyDict.set, h, PyDict.set_set rest k v]

theorem PyDict.isEmpty_set (d : PyDict) (k : String) (v : PyVal) :
    (d.set k v).isEmpty = false := by
  cases d with
  | nil => simp [PyDict.set, PyDict.isEmpty]
  | cons k' v' rest =>
    by_cases h : k' = k <;> simp [PyDict.set, PyDict.isEmpty, h]

theorem get_dict_idem (a : RequestAction) : a.get_dict_.snd.get_dict_ = a.get_dict_ := by
  by_cases h : a.options.isEmpty = true
  · simp [RequestAction.get_dict_, h]
  · simp only [RequestAction.get_dict_, h]
    simp [PyDict.isEmpty_set, PyDict.set_set]

theorem encodeAction_snd_idem (a : RequestAction) :
    encodeAction (encodeAction a).snd = encodeAction a := by
  simp [encodeAction, get_dict_idem]

theorem encodeActions_snd_idem (l : List RequestAction) :
    encodeActions (encodeActions l).snd = encodeActions l := by
  induction l with
  | nil => rfl
  | cons a rest ih => simp [encodeActions, encodeAction_snd_idem, ih]

theorem encodeActions_fst_map (l : List RequestAction) :
    (encodeActions l).fst = l.map wireVal := by
  induction l with
  | nil => rfl
  | cons a rest ih => simp [encodeActions, wireVal, ih]

theorem appendActions_actions (l : List RequestAction) : ∀ r : Request,
    (appendActions r l).actions = r.actions ++ l := by
  induction l with
  | nil => intro r; simp [appendActions]
  | cons a rest ih =>
    intro r
    have h1 : appendActions r (a :: rest) = appendActions (r.add_action a) rest := rfl
    rw [h1, ih (r.add_action a)]
    simp [Request.add_action]

theorem titleAux_eq_zip (cs : List Char) : ∀ p : Char,
    titleAux p.isAlpha cs = (cs.zip (p :: cs)).map
      (fun cp => if cp.1.isAlpha then (if cp.2.isAlpha then cp.1.toLower else cp.1.toUpper)
                 else cp.1) := by
  induction cs with
  | nil => intro p; rfl
  | cons c cs ih =>
    intro p
    have tail := ih c
    cases hc : c.isAlpha with
    | true =>
      rw [hc] at tail
      simp [titleAux, hc, tail]
    | false =>
      rw [hc] at tail
      simp [titleAux, hc, tail]

theorem pyTitle_eq_titleSpec (s : String) : pyTitle s = titleSpec s := by
  have h := titleAux_eq_zip s.data ' '
  have hsp : (' ').isAlpha = false := by decide
  rw [hsp] at h
  unfold pyTitle titleSpec
  rw [h]

/-!
Claim theorems.
-/

/-- C1: for every document, every wire value handed to the JSON writer when
the document is serialized contains no native boolean node (and the writer
emits a native JSON boolean token only at such a node), and the recursive
normalization pass renders every boolean `b` as the JSON string `"true"` or
`"false"`. -/
theorem C1_booleans_serialized_as_strings (r : Request) :
    boolFree (.list (pyListOf r.wireVals)) = true
    ∧ ∀ b : Bool, normalize_dict (.bool b) = .str (pyBoolStr b) := by
  constructor
  · simpa [boolFree, Request.wireVals] using boolFreeList_encodeActions r.actions
  · intro b; rfl

/-- C2 counterexample: on the identifier `a_bC` (two segments, second segment
`bC`), the code returns `aBc` (Python `str.title` lower-cases the trailing
`C`), while the claim's "first character upper-cased, rest unchanged" reading
yields `aBC`; the two disagree. -/
theorem C2_counterexample_upper_first_only :
    snake_case_to_camel "a_bC" = "aBc"
    ∧ claimToWireKey "a_bC" = "aBC"
    ∧ snake_case_to_camel "a_bC" ≠ claimToWireKey "a_bC" := by
  exact ⟨by decide, by decide, by decide⟩

/-- C2 amended: for identifiers with two or more `_`-separated segments the
result is the first segment unchanged followed by each later segment
title-cased in the Python `str.title` sense (a letter is upper-cased when the
preceding character is not a letter and lower-cased otherwise); a
single-segment identifier is returned lower-cased. -/
theorem C2_amended_title_cased_segments (name : String) :
    (1 < (pySplitUnderscore name).length →
      snake_case_to_camel name =
        ((pySplitUnderscore name).headD "")
          ++ String.join (((pySplitUnderscore name).drop 1).map titleSpec))
    ∧ ((pySplitUnderscore name).length ≤ 1 → snake_case_to_camel name = pyLower name) := by
  constructor
  · intro h
    have hfun : pyTitle = titleSpec := funext pyTitle_eq_titleSpec
    simp [snake_case_to_camel, h, hfun]
  · intro h
    have h2 : ¬ 1 < (pySplitUnderscore name).length := by omega
    simp [snake_case_to_camel, h2]

/-- C2 witness: the amended statement evaluated at `event_url`. -/
theorem C2_witness : 1 < (pySplitUnderscore "event_url").length
    ∧ snake_case_to_camel "event_url" =
        ((pySplitUnderscore "event_url").headD "")
          ++ String.join (((pySplitUnderscore "event_url").drop 1).map titleSpec) :=
  ⟨by decide, (C2_amended_title_cased_segments "event_url").1 (by decide)⟩

/-- C3: `Connect(endpoint=[{"type":"phone","number":"123"}],
event_url=["http://x"])` with all other parameters at their defaults succeeds,
and its serialized object carries the members `action:"connect"`,
`endpoint:[{"type":"phone","number":"123"}]`, `eventUrl:["http://x"]`,
`timeout:60` and `limit:7200`; serializing a document containing it yields
exactly the expected JSON text. -/
theorem C3_connect_default_serialization :
    connectDefaults c3endpoint c3eventUrl = .ok c3action
    ∧ (wireDict c3action).get "action" = some (.str "connect")
    ∧ (wireDict c3action).get "endpoint" = some c3endpoint
    ∧ (wireDict c3action).get "eventUrl" = some c3eventUrl
    ∧ (wireDict c3action).get "timeout" = some (.int 60)
    ∧ (wireDict c3action).get "limit" = some (.int 7200)
    ∧ (((Request.init false false).add_action c3action).get_json_string).fst =
        "[\x7b\"endpoint\": [\x7b\"type\": \"phone\", \"number\": \"123\"\x7d], \"eventUrl\": [\"http://x\"], \"eventMethod\": \"POST\", \"timeout\": 60, \"limit\": 7200, \"action\": \"connect\"\x7d]" := by
  exact ⟨by decide, by decide, by decide, by decide, by decide, by decide, by decide⟩

/-- C4 (code-bug evidence): a bare empty mapping passed as `endpoint` raises
nothing at all — the `if the_list and not isinstance(the_list, list)` guard
skips falsy values, so `{}` is silently stored as the `endpoint` option; a
non-iterable scalar raises `TypeError` from `filter`, not the `ValueError`
(`ShapeError`) of the declared shape check; only a truthy non-list whose
iteration yields a non-dict element raises the declared `ValueError`. -/
theorem C4_endpoint_shape_check_gap :
    connectDefaults (.dict .nil) c3eventUrl
      = .ok (RequestAction.mk "connect"
          (pyDictOf [("endpoint", .dict .nil), ("eventUrl", c3eventUrl),
            ("eventMethod", .str "POST"), ("timeout", .int 60), ("limit", .int 7200)]))
    ∧ connectDefaults (.int 5) c3eventUrl = .error .typeError
    ∧ connectDefaults (.dict (pyDictOf [("type", .str "phone")])) c3eventUrl
        = .error .valueError := by
  exact ⟨by decide, by decide, by decide⟩

/-- C5 (code-bug evidence): before serialization the talk action's options
hold no `action` key, but `get_json_string` persists `action:"talk"` into
the action's own options through the `options = self.options or {}` alias in
`_get_dict`. -/
theorem C5_action_key_persisted_by_serialization :
    c5act.options.get "action" = Option.none
    ∧ (c5req.get_json_string).snd
        = { c5req with actions :=
            [RequestAction.mk "talk" (pyDictOf [("text", .str "hi"), ("action", .str "talk")])] } := by
  exact ⟨by decide, by decide⟩

/-- C6 counterexample: serialization is not non-destructive — serializing a
concrete one-action document changes the document (the `action` key is
persisted into the action's options). -/
theorem C6_counterexample_serialization_mutates :
    (c6req.get_json_string).snd ≠ c6req := by decide

/-- C6 amended: serializing any document twice with no external mutation
between the calls yields byte-identical output strings, although
serialization itself persists the `action` key into each non-empty options
map (which leaves every later serialization unchanged). -/
theorem C6_amended_serialize_twice_byte_identical (r : Request) :
    (r.get_json_string).fst = ((r.get_json_string).snd.get_json_string).fst := by
  simp [Request.get_json_string, encodeActions_snd_idem]

/-- C7: appending any list of actions to a fresh document and serializing
yields one wire value per action, in append order: the encoded list has the
same length, and its i-th element is the wire representation of the i-th
appended action. -/
theorem C7_append_order_preserved (pretty sk : Bool) (l : List RequestAction)
    (i : Nat) (h : i < l.length) :
    (appendActions (Request.init pretty sk) l).wireVals.length = l.length
    ∧ (appendActions (Request.init pretty sk) l).wireVals[i]? = some (wireVal l[i]) := by
  have hacts : (appendActions (Request.init pretty sk) l).actions = l := by
    rw [appendActions_actions]
    simp [Request.init]
  constructor
  · simp [Request.wireVals, hacts, encodeActions_fst_map]
  · simp [Request.wireVals, hacts, encodeActions_fst_map, List.getElem?_eq_getElem h]

/-- C7 witness: a two-action document, inspected at index 1. -/
theorem C7_witness : 1 < ([c7talk, c7record] : List RequestAction).length
    ∧ ((appendActions (Request.init false false) [c7talk, c7record]).wireVals.length = 2
       ∧ (appendActions (Request.init false false) [c7talk, c7record]).wireVals[1]?
           = some (wireVal c7record)) :=
  ⟨by decide, C7_append_order_preserved false false [c7talk, c7record] 1 (by decide)⟩

/-- C8: adding an option under the alias `_from` stores it under exactly the
wire key `from` (with the usual bool coercion applied to the value), whereas
the generic snake-to-camel conversion applied to `_from` itself would have
produced `From`. -/
theorem C8_from_alias_literal_key (a : RequestAction) (v : PyVal) :
    (a.add_option "_from" v).options = a.options.set "from" (coerceBool v)
    ∧ (a.add_option "_from" v).options.get "from" = some (coerceBool v)
    ∧ snake_case_to_camel "_from" = "From" := by
  have hkey : snake_case_to_camel "from" = "from" := by decide
  refine ⟨?_, ?_, by decide⟩
  · simp [RequestAction.add_option, hkey]
  · simp [RequestAction.add_option, hkey, PyDict.get_set_self]

/-- C9: the response-side options store is the class-level dict shared by all
instances: for any two instances produced by the constructor, an option added
through one is observable through the other, clearing through one clears for
the other, and the constructor never gives an instance its own store. -/
theorem C9_response_options_shared (cls : ResponseClassState) (a1 a2 name : String) (v : PyVal) :
    respOptions (ResponseAction.add_option cls (ResponseAction.init cls a1).snd name v).fst
        (ResponseAction.init cls a2).snd
      = (respOptions cls (ResponseAction.init cls a2).snd).set (snake_case_to_camel name) v
    ∧ respOptions (ResponseAction.clear_options cls (ResponseAction.init cls a1).snd).fst
        (ResponseAction.init cls a2).snd = .nil
    ∧ ((ResponseAction.init cls a1).snd).ownOptions = Option.none := by
  exact ⟨rfl, rfl, rfl⟩

/-- C10: loading the request module never fails whether or not django is
installed; without django, `render` — and only `render` — fails with
`ImportError` (the spec's `UnavailableDependency`); with django, `render`
wraps exactly the string plain serialization produces, which is available
either way. -/
theorem C10_render_requires_django (r : Request) :
    importRequestModule { django_installed := false } = .ok (requestModuleOf { django_installed := false })
    ∧ importRequestModule { django_installed := true } = .ok (requestModuleOf { django_installed := true })
    ∧ Request.render (requestModuleOf { django_installed := false }) r = .error .importError
    ∧ Request.render (requestModuleOf { django_installed := true }) r
        = .ok ({ content := (r.get_json_string).fst, content_type := JSON_MIME },
               (r.get_json_string).snd) := by
  exact ⟨rfl, rfl, rfl, rfl⟩

end Nexmo
